import Mathlib

/-!
Verification of the rag-queue-autoscale worker runtime.

Shallow embedding of `src/app/worker.py`, `src/app/metrics.py` and the queue
transport used by `src/loadgen/push_jobs.py`.  Python dictionaries and Redis
hashes are modelled as association lists over `String`; Redis write failures
("the underlying store rejects the write") are modelled by a per-call fault
schedule threaded through the store state; the pipeline (`rag.py`'s
`RAGEngine.answer`, an external collaborator behind a narrow interface) is a
parameter `String → Except String RagResult`.  Well-formed job payloads are
modelled as JSON objects with string fields — the only shape the worker ever
reads (`job_data.get("job_id", ...)`, `job_data.get("question", ...)`).
-/

namespace RagWorker

/-- Configuration defaults, from `worker.py` lines 26-31
    (`RESULT_PREFIX`, `RESULT_TTL`, `WORKER_ID` env defaults). -/
def RESULT_NS : String := "rag:result:"

def RESULT_TTL : Nat := 3600

def WORKER_ID : String := "worker-local"

/-- Association-list lookup with string keys (models Python `dict`/Redis hash
    field access). -/
def alookup {α : Type} : List (String × α) → String → Option α
  | [], _ => none
  | (k, v) :: rest, g => if k = g then some v else alookup rest g

/-- Association-list update: replace the binding for `k` if present, else
    append (models `dict[k] = v` / setting one Redis hash field). -/
def setAssoc {α : Type} : List (String × α) → String → α → List (String × α)
  | [], k, v => [(k, v)]
  | (k0, v0) :: rest, k, v =>
    if k0 = k then (k, v) :: rest else (k0, v0) :: setAssoc rest k v

/-- A Redis hash: field → value. -/
abbrev Hash := List (String × String)

/-- The Redis result-store state: hashes keyed by result key, TTLs keyed by
    key, and a fault schedule.  Each write-type command (`HSET`, `EXPIRE`)
    consumes one entry of `faults`; `false` means the store rejects that
    command (the client raises).  An empty schedule means no faults. -/
structure RedisStore where
  hashes : List (String × Hash)
  ttls : List (String × Nat)
  faults : List Bool
deriving DecidableEq

/-- Consume the next fault-schedule entry; an exhausted schedule yields
    success. -/
def nextFault : List Bool → Bool × List Bool
  | [] => (true, [])
  | b :: bs => (b, bs)

/-- Apply an `HSET` field mapping to one hash: set each given field, leaving
    other fields in place. -/
def hsetFields (h : Hash) (m : List (String × String)) : Hash :=
  m.foldl (fun acc p => setAssoc acc p.1 p.2) h

/-- `HSET key mapping`: sets exactly the given fields of the hash at `key`,
    leaving any other fields of an existing hash in place (Redis `HSET`
    field-merge semantics, as invoked by `worker.py` lines 76-85 / 93-101).
    Returns the updated store and whether the command succeeded. -/
def hset (st : RedisStore) (key : String) (m : List (String × String)) :
    RedisStore × Bool :=
  let (ok, rest) := nextFault st.faults
  if ok then
    ({ st with
        hashes := setAssoc st.hashes key
          (hsetFields ((alookup st.hashes key).getD []) m)
        faults := rest }, true)
  else
    ({ st with faults := rest }, false)

/-- `EXPIRE key ttl`: sets the key's TTL (`worker.py` lines 86, 102). -/
def expire (st : RedisStore) (key : String) (ttl : Nat) : RedisStore × Bool :=
  let (ok, rest) := nextFault st.faults
  if ok then
    ({ st with ttls := setAssoc st.ttls key ttl, faults := rest }, true)
  else
    ({ st with faults := rest }, false)

/-- Observable store state: the value of one field of the hash at `key`. -/
def observeField (st : RedisStore) (key f : String) : Option String :=
  alookup ((alookup st.hashes key).getD []) f

/-- Observable TTL of a key. -/
def ttlOf (st : RedisStore) (key : String) : Option Nat :=
  alookup st.ttls key

/-- A retrieved source passage as returned by the pipeline
    (`rag.py` `answer`: `{content, metadata}`); `metadata` is kept as its
    serialized form, opaque to the worker. -/
structure RagSource where
  content : String
  metadata : String
deriving DecidableEq

/-- The pipeline's `answer(question)` result: `{answer, sources}`. -/
structure RagResult where
  answer : String
  sources : List RagSource
deriving DecidableEq

/-- The pipeline interface the worker invokes (`rag_engine.answer`); an
    exception from retrieval/generation is an `Except.error` carrying
    `str(e)`. -/
abbrev RagEngine := String → Except String RagResult

/-- `json.dumps` of one source object, as used on `result["sources"]`
    (`worker.py` line 81); string-escaping of the content is not modelled. -/
def jsonDumpsSource (s : RagSource) : String :=
  "\x7b\"content\": \"" ++ s.content ++ "\", \"metadata\": " ++ s.metadata ++ "\x7d"

/-- `json.dumps` of the sources list. -/
def jsonDumpsSources (l : List RagSource) : String :=
  "[" ++ String.intercalate ", " (l.map jsonDumpsSource) ++ "]"

/-- The dict built by `process_job` on success (`worker.py` lines 62-70). -/
structure JobResult where
  job_id : String
  status : String
  question : String
  answer : String
  sources : List RagSource
  worker_id : String
  completed_at : String
deriving DecidableEq

/-- The message of the `ValueError` raised by `process_job`
    (`worker.py` line 55). -/
def missingQuestionMsg : String := "Job missing \x27question\x27 field"

/-- `process_job(rag_engine, job_data)` (`worker.py` lines 49-70): read
    `job_id` (default `"unknown"`) and `question` (default `""`), raise
    `ValueError` on an empty question, run the pipeline, build the completed
    result dict. `now` stands for `datetime.utcnow().isoformat()`. -/
def process_job (engine : RagEngine) (now : String)
    (job_data : List (String × String)) : Except String JobResult :=
  let job_id := (alookup job_data "job_id").getD "unknown"
  let question := (alookup job_data "question").getD ""
  if question = "" then
    Except.error missingQuestionMsg
  else
    match engine question with
    | Except.error e => Except.error e
    | Except.ok r =>
      Except.ok
        { job_id := job_id
          status := "completed"
          question := question
          answer := r.answer
          sources := r.sources
          worker_id := WORKER_ID
          completed_at := now }

/-- `store_result(client, job_id, result)` (`worker.py` lines 73-87): `HSET`
    of the five persisted fields, then `EXPIRE` with `RESULT_TTL`.  Returns
    the store after whatever commands ran plus a success flag (`false` means
    the corresponding Python call raised). -/
def store_result (st : RedisStore) (job_id : String) (r : JobResult) :
    RedisStore × Bool :=
  let key := RESULT_NS ++ job_id
  let (st1, ok1) := hset st key
    [("status", r.status), ("answer", r.answer),
     ("sources", jsonDumpsSources r.sources),
     ("worker_id", r.worker_id), ("completed_at", r.completed_at)]
  if ok1 then expire st1 key RESULT_TTL else (st1, false)

/-- `store_error(client, job_id, error)` (`worker.py` lines 90-103). -/
def store_error (st : RedisStore) (job_id error now : String) :
    RedisStore × Bool :=
  let key := RESULT_NS ++ job_id
  let (st1, ok1) := hset st key
    [("status", "error"), ("error", error),
     ("worker_id", WORKER_ID), ("completed_at", now)]
  if ok1 then expire st1 key RESULT_TTL else (st1, false)

/-- Process-wide metrics (`metrics.py`): the inflight gauge with increment /
    decrement call counts, the processed counter by status label, and the
    number of `agent_job_duration.observe` calls. -/
structure Metrics where
  inflight : Int
  inflightIncs : Nat
  inflightDecs : Nat
  processedOk : Nat
  processedErr : Nat
  durationObs : Nat
deriving DecidableEq

/-- `increment_inflight()` (`metrics.py` lines 132-134). -/
def increment_inflight (m : Metrics) : Metrics :=
  { m with inflight := m.inflight + 1, inflightIncs := m.inflightIncs + 1 }

/-- `decrement_inflight()` (`metrics.py` lines 137-139). -/
def decrement_inflight (m : Metrics) : Metrics :=
  { m with inflight := m.inflight - 1, inflightDecs := m.inflightDecs + 1 }

/-- `record_job_success()` (`metrics.py` lines 142-144). -/
def record_job_success (m : Metrics) : Metrics :=
  { m with processedOk := m.processedOk + 1 }

/-- `record_job_error()` (`metrics.py` lines 147-149). -/
def record_job_error (m : Metrics) : Metrics :=
  { m with processedErr := m.processedErr + 1 }

/-- `agent_job_duration.observe(elapsed)` (`worker.py` line 174); only the
    number of observations is modelled. -/
def observeDuration (m : Metrics) : Metrics :=
  { m with durationObs := m.durationObs + 1 }

/-- A popped payload after `json.loads`: either a decode failure
    (`json.JSONDecodeError`) or a JSON object with string fields. -/
inductive Payload where
  | malformed (raw : String)
  | wellFormed (obj : List (String × String))
deriving DecidableEq

/-- Outcome of one `client.brpop(QUEUE_NAME, timeout=...)` call: timeout
    (`None`), a `redis.ConnectionError`, or a delivered payload. -/
inductive PopOutcome where
  | timeout
  | connError
  | item (payload : Payload)
deriving DecidableEq

/-- Worker-visible state: the result store, the metrics registry and the
    module-level `_shutdown` flag. -/
structure WorkerState where
  store : RedisStore
  metrics : Metrics
  shutdown : Bool
deriving DecidableEq

/-- The try/except body of `worker_loop` lines 156-169: run `process_job`;
    on success `store_result` then `record_job_success`; on any exception
    (validation, pipeline, or a raising `store_result`) run `store_error`
    then `record_job_error`.  A `store_error` that itself raises skips
    `record_job_error` (the exception escapes to the loop boundary, after the
    `finally`).  The text of a store exception is environment-dependent; it
    is modelled by the fixed string `"store write rejected"`. -/
def tryProcessStore (engine : RagEngine) (now : String)
    (job_data : List (String × String)) (store : RedisStore) (m : Metrics) :
    RedisStore × Metrics :=
  let job_id := (alookup job_data "job_id").getD "unknown"
  match process_job engine now job_data with
  | Except.ok result =>
    match store_result store job_id result with
    | (s1, true) => (s1, record_job_success m)
    | (s1, false) =>
      match store_error s1 job_id "store write rejected" now with
      | (s2, true) => (s2, record_job_error m)
      | (s2, false) => (s2, m)
  | Except.error e =>
    match store_error store job_id e now with
    | (s2, true) => (s2, record_job_error m)
    | (s2, false) => (s2, m)

/-- One iteration of the main loop (`worker.py` lines 132-183), given the
    pop outcome.  Timeout: `continue` with no side effect.  Connection
    error: logged, backoff, `continue`.  Malformed payload: `record_job_error`
    and `continue` (lines 143-148).  Parsed job: `increment_inflight`, the
    try/except body, then the `finally` (duration observation and
    `decrement_inflight`, lines 171-175) — the `finally` also runs when the
    except-handler's `store_error` raises, before the loop-boundary handler
    (line 181) logs and continues. -/
def workerIteration (engine : RagEngine) (now : String) (pop : PopOutcome)
    (st : WorkerState) : WorkerState :=
  match pop with
  | PopOutcome.timeout => st
  | PopOutcome.connError => st
  | PopOutcome.item (Payload.malformed _) =>
    { st with metrics := record_job_error st.metrics }
  | PopOutcome.item (Payload.wellFormed job_data) =>
    let m1 := increment_inflight st.metrics
    let (store2, m2) := tryProcessStore engine now job_data st.store m1
    { st with store := store2, metrics := decrement_inflight (observeDuration m2) }

/-- Scripted input for one loop iteration: the pop outcome, the wall-clock
    reading, and whether a termination signal arrives during the iteration.
    The signal handler (`worker.py` lines 37-41) only sets `_shutdown`, and
    the loop body never reads the flag, so a signal arriving at any point of
    an iteration is equivalent to running the full iteration and then setting
    the flag before the next `while not _shutdown` check. -/
structure IterInput where
  pop : PopOutcome
  now : String
  signal : Bool
deriving DecidableEq

/-- One scripted loop step: the iteration's effects, then the signal (if
    any) sets the shutdown flag. -/
def loopStep (engine : RagEngine) (inp : IterInput) (st : WorkerState) :
    WorkerState :=
  let st1 := workerIteration engine inp.now inp.pop st
  if inp.signal then { st1 with shutdown := true } else st1

/-- `worker_loop`'s `while not _shutdown` (lines 131-185) over a finite
    script of iteration inputs: `some finalState` when the loop observed the
    flag at an iteration boundary and exited; `none` when the script ran out
    with the loop still running. -/
def workerLoop (engine : RagEngine) : List IterInput → WorkerState →
    Option WorkerState
  | [], st => if st.shutdown then some st else none
  | inp :: rest, st =>
    if st.shutdown then some st
    else workerLoop engine rest (loopStep engine inp st)

/-- Modelled from the spec: the queue transport is a Redis list, external to
    this repository.  `push_jobs.py` line 69 pushes with `LPUSH` (prepend at
    the left end); the worker consumes with `BRPOP` (remove from the right
    end) — "producer pushes to one end, worker pops from the other". -/
def lpush (q : List String) (x : String) : List String := x :: q

/-- Modelled from the spec: `BRPOP` removes and returns the element at the
    right end of the list — the oldest pushed — or `none` when the queue is
    empty (the blocking timeout elapsed). -/
def brpop (q : List String) : Option (String × List String) :=
  match q.reverse with
  | [] => none
  | x :: rest => some (x, rest.reverse)

/-- Push a list of payloads in order. -/
def pushAll (q : List String) (xs : List String) : List String :=
  xs.foldl lpush q

/-- Pop up to `n` payloads, collecting them in delivery order. -/
def popAll : Nat → List String → List String
  | 0, _ => []
  | n + 1, q =>
    match brpop q with
    | none => []
    | some (x, q1) => x :: popAll n q1

/-- Modelled from the spec: N workers concurrently polling the same queue.
    The transport serializes concurrent `BRPOP` calls — "exactly one
    concurrent caller receives any given payload" — so any concurrent
    execution is an interleaving: a schedule of atomic pops, each by one
    worker.  Returns the final queue and the (worker, payload) deliveries. -/
def runPops : List Nat → List String → List String × List (Nat × String)
  | [], q => (q, [])
  | w :: ws, q =>
    match brpop q with
    | none => runPops ws q
    | some (x, q1) =>
      let (qf, ds) := runPops ws q1
      (qf, (w, x) :: ds)

/-- The hash produced by `store_result`'s `HSET` mapping over a prior hash
    `h0`. -/
def resultFieldsHash (h0 : Hash) (r : JobResult) : Hash :=
  setAssoc (setAssoc (setAssoc (setAssoc (setAssoc h0 "status" r.status)
    "answer" r.answer) "sources" (jsonDumpsSources r.sources))
    "worker_id" r.worker_id) "completed_at" r.completed_at

/-- The hash produced by `store_error`'s `HSET` mapping over a prior hash
    `h0`. -/
def errorFieldsHash (h0 : Hash) (err now : String) : Hash :=
  setAssoc (setAssoc (setAssoc (setAssoc h0 "status" "error") "error" err)
    "worker_id" WORKER_ID) "completed_at" now

/-- A stub pipeline for concrete runs: always answers `"30 days"` with no
    sources (the spec's round-trip test vector). -/
def engineStub : RagEngine := fun _ => Except.ok { answer := "30 days", sources := [] }

/-- Fresh metrics registry (all counters and gauges at zero). -/
def metrics0 : Metrics :=
  { inflight := 0, inflightIncs := 0, inflightDecs := 0,
    processedOk := 0, processedErr := 0, durationObs := 0 }

/-- A stub pipeline whose backend is down: every call raises. -/
def engineStubDown : RagEngine := fun _ => Except.error "pipeline down"

/-- A concrete completed result, for counterexample runs. -/
def sampleResult : JobResult :=
  { job_id := "j1", status := "completed", question := "q",
    answer := "30 days", sources := [], worker_id := WORKER_ID,
    completed_at := "t1" }

/-! ### Lemmas about the store and the metrics -/

theorem alookup_setAssoc {α : Type} (l : List (String × α)) (k : String)
    (v : α) (g : String) :
    alookup (setAssoc l k v) g = if k = g then some v else alookup l g := by
  induction l with
  | nil => simp [setAssoc, alookup]
  | cons p rest ih =>
    obtain ⟨k0, v0⟩ := p
    by_cases h1 : k0 = k <;> by_cases h2 : k = g <;>
      simp_all [setAssoc, alookup]

theorem tryProcessStore_metrics (engine : RagEngine) (now : String)
    (job_data : List (String × String)) (s : RedisStore) (m : Metrics) :
    ((tryProcessStore engine now job_data s m).2).inflight = m.inflight ∧
    ((tryProcessStore engine now job_data s m).2).inflightIncs = m.inflightIncs ∧
    ((tryProcessStore engine now job_data s m).2).inflightDecs = m.inflightDecs ∧
    ((tryProcessStore engine now job_data s m).2).durationObs = m.durationObs := by
  unfold tryProcessStore
  cases hpj : process_job engine now job_data with
  | ok result =>
    rcases hsr : store_result s ((alookup job_data "job_id").getD "unknown")
        result with ⟨s1, ok1⟩
    cases ok1
    · rcases hse : store_error s1 ((alookup job_data "job_id").getD "unknown")
          "store write rejected" now with ⟨s2, ok2⟩
      cases ok2 <;> simp [hsr, hse, record_job_success, record_job_error]
    · simp [hsr, record_job_success]
  | error e =>
    rcases hse : store_error s ((alookup job_data "job_id").getD "unknown")
        e now with ⟨s2, ok2⟩
    cases ok2 <;> simp [hse, record_job_error]

theorem store_result_nofault (hs : List (String × Hash))
    (ts : List (String × Nat)) (job_id : String) (r : JobResult) :
    store_result ⟨hs, ts, []⟩ job_id r =
      (⟨setAssoc hs (RESULT_NS ++ job_id)
          (resultFieldsHash ((alookup hs (RESULT_NS ++ job_id)).getD []) r),
        setAssoc ts (RESULT_NS ++ job_id) RESULT_TTL, []⟩, true) := by
  simp [store_result, hset, expire, nextFault, hsetFields, resultFieldsHash]

theorem store_error_nofault (hs : List (String × Hash))
    (ts : List (String × Nat)) (job_id err now : String) :
    store_error ⟨hs, ts, []⟩ job_id err now =
      (⟨setAssoc hs (RESULT_NS ++ job_id)
          (errorFieldsHash ((alookup hs (RESULT_NS ++ job_id)).getD []) err now),
        setAssoc ts (RESULT_NS ++ job_id) RESULT_TTL, []⟩, true) := by
  simp [store_error, hset, expire, nextFault, hsetFields, errorFieldsHash]

theorem process_job_success (engine : RagEngine) (now : String)
    (job_data : List (String × String)) (r : RagResult)
    (hq : (alookup job_data "question").getD "" ≠ "")
    (he : engine ((alookup job_data "question").getD "") = Except.ok r) :
    process_job engine now job_data =
      Except.ok
        { job_id := (alookup job_data "job_id").getD "unknown"
          status := "completed"
          question := (alookup job_data "question").getD ""
          answer := r.answer
          sources := r.sources
          worker_id := WORKER_ID
          completed_at := now } := by
  simp [process_job, hq, he]

theorem process_job_empty_question (engine : RagEngine) (now : String)
    (job_data : List (String × String))
    (hq : (alookup job_data "question").getD "" = "") :
    process_job engine now job_data = Except.error missingQuestionMsg := by
  simp [process_job, hq]

theorem process_job_pipeline_error (engine : RagEngine) (now : String)
    (job_data : List (String × String)) (e : String)
    (hq : (alookup job_data "question").getD "" ≠ "")
    (he : engine ((alookup job_data "question").getD "") = Except.error e) :
    process_job engine now job_data = Except.error e := by
  simp [process_job, hq, he]

/-- Full-state equation for a success-path iteration over a fault-free
    store. -/
theorem success_iteration (engine : RagEngine) (now : String)
    (job_data : List (String × String)) (hs : List (String × Hash))
    (ts : List (String × Nat)) (m : Metrics) (sd : Bool) (r : RagResult)
    (hq : (alookup job_data "question").getD "" ≠ "")
    (he : engine ((alookup job_data "question").getD "") = Except.ok r) :
    workerIteration engine now (PopOutcome.item (Payload.wellFormed job_data))
        ⟨⟨hs, ts, []⟩, m, sd⟩ =
      ⟨⟨setAssoc hs (RESULT_NS ++ (alookup job_data "job_id").getD "unknown")
          (resultFieldsHash
            ((alookup hs (RESULT_NS ++ (alookup job_data "job_id").getD "unknown")).getD [])
            { job_id := (alookup job_data "job_id").getD "unknown"
              status := "completed"
              question := (alookup job_data "question").getD ""
              answer := r.answer
              sources := r.sources
              worker_id := WORKER_ID
              completed_at := now }),
        setAssoc ts (RESULT_NS ++ (alookup job_data "job_id").getD "unknown") RESULT_TTL, []⟩,
       decrement_inflight (observeDuration (record_job_success (increment_inflight m))), sd⟩ := by
  simp only [workerIteration, tryProcessStore,
    process_job_success engine now job_data r hq he, store_result_nofault]

/-- Full-state equation for a validation-failure iteration (missing or empty
    `question`) over a fault-free store. -/
theorem validation_error_iteration (engine : RagEngine) (now : String)
    (job_data : List (String × String)) (hs : List (String × Hash))
    (ts : List (String × Nat)) (m : Metrics) (sd : Bool)
    (hq : (alookup job_data "question").getD "" = "") :
    workerIteration engine now (PopOutcome.item (Payload.wellFormed job_data))
        ⟨⟨hs, ts, []⟩, m, sd⟩ =
      ⟨⟨setAssoc hs (RESULT_NS ++ (alookup job_data "job_id").getD "unknown")
          (errorFieldsHash
            ((alookup hs (RESULT_NS ++ (alookup job_data "job_id").getD "unknown")).getD [])
            missingQuestionMsg now),
        setAssoc ts (RESULT_NS ++ (alookup job_data "job_id").getD "unknown") RESULT_TTL, []⟩,
       decrement_inflight (observeDuration (record_job_error (increment_inflight m))), sd⟩ := by
  simp only [workerIteration, tryProcessStore,
    process_job_empty_question engine now job_data hq, store_error_nofault]

/-- Full-state equation for a pipeline-failure iteration (the engine
    raises) over a fault-free store. -/
theorem pipeline_error_iteration (engine : RagEngine) (now : String)
    (job_data : List (String × String)) (hs : List (String × Hash))
    (ts : List (String × Nat)) (m : Metrics) (sd : Bool) (e : String)
    (hq : (alookup job_data "question").getD "" ≠ "")
    (he : engine ((alookup job_data "question").getD "") = Except.error e) :
    workerIteration engine now (PopOutcome.item (Payload.wellFormed job_data))
        ⟨⟨hs, ts, []⟩, m, sd⟩ =
      ⟨⟨setAssoc hs (RESULT_NS ++ (alookup job_data "job_id").getD "unknown")
          (errorFieldsHash
            ((alookup hs (RESULT_NS ++ (alookup job_data "job_id").getD "unknown")).getD [])
            e now),
        setAssoc ts (RESULT_NS ++ (alookup job_data "job_id").getD "unknown") RESULT_TTL, []⟩,
       decrement_inflight (observeDuration (record_job_error (increment_inflight m))), sd⟩ := by
  simp only [workerIteration, tryProcessStore,
    process_job_pipeline_error engine now job_data e hq he, store_error_nofault]

/-- C1: for every popped, well-formed job — whatever the pipeline outcome
    (success, validation failure, pipeline failure) and whatever the store
    does — the iteration increments the inflight gauge exactly once and
    decrements it exactly once, so the gauge returns to its pre-job value. -/
theorem c1_inflight_gauge_balanced (engine : RagEngine) (now : String)
    (obj : List (String × String)) (st : WorkerState) :
    (workerIteration engine now (PopOutcome.item (Payload.wellFormed obj)) st).metrics.inflightIncs
        = st.metrics.inflightIncs + 1 ∧
    (workerIteration engine now (PopOutcome.item (Payload.wellFormed obj)) st).metrics.inflightDecs
        = st.metrics.inflightDecs + 1 ∧
    (workerIteration engine now (PopOutcome.item (Payload.wellFormed obj)) st).metrics.inflight
        = st.metrics.inflight := by
  have h := tryProcessStore_metrics engine now obj st.store
    (increment_inflight st.metrics)
  rcases hts : tryProcessStore engine now obj st.store
      (increment_inflight st.metrics) with ⟨s2, m2⟩
  rw [hts] at h
  simp only [workerIteration, hts]
  simp [decrement_inflight, observeDuration, increment_inflight] at h ⊢
  omega

/-- C4: a well-formed job whose `question` field is missing or empty takes
    the job-level error path: an `error`-status record with the descriptive
    `ValueError` message is written under that job's result key (never a
    `completed` record), and the error counter is incremented — a record is
    written, unlike a parse failure. -/
theorem c4_empty_question_error_path (engine : RagEngine) (now : String)
    (job_data : List (String × String)) (hs : List (String × Hash))
    (ts : List (String × Nat)) (m : Metrics) (sd : Bool)
    (hq : (alookup job_data "question").getD "" = "") :
    observeField (workerIteration engine now
        (PopOutcome.item (Payload.wellFormed job_data)) ⟨⟨hs, ts, []⟩, m, sd⟩).store
        (RESULT_NS ++ (alookup job_data "job_id").getD "unknown") "status" = some "error" ∧
    observeField (workerIteration engine now
        (PopOutcome.item (Payload.wellFormed job_data)) ⟨⟨hs, ts, []⟩, m, sd⟩).store
        (RESULT_NS ++ (alookup job_data "job_id").getD "unknown") "error" = some missingQuestionMsg ∧
    observeField (workerIteration engine now
        (PopOutcome.item (Payload.wellFormed job_data)) ⟨⟨hs, ts, []⟩, m, sd⟩).store
        (RESULT_NS ++ (alookup job_data "job_id").getD "unknown") "status" ≠ some "completed" ∧
    (workerIteration engine now
        (PopOutcome.item (Payload.wellFormed job_data)) ⟨⟨hs, ts, []⟩, m, sd⟩).metrics.processedErr
      = m.processedErr + 1 ∧
    (workerIteration engine now
        (PopOutcome.item (Payload.wellFormed job_data)) ⟨⟨hs, ts, []⟩, m, sd⟩).metrics.processedOk
      = m.processedOk := by
  rw [validation_error_iteration engine now job_data hs ts m sd hq]
  refine ⟨?_, ?_, ?_, ?_, ?_⟩ <;>
    simp +decide [observeField, alookup_setAssoc, errorFieldsHash,
      record_job_error, increment_inflight, decrement_inflight, observeDuration]

/-- Witness for C4 at a concrete job with no `question` field. -/
theorem c4_empty_question_error_path_witness :
    ((alookup [("job_id", "j1")] "question").getD "" = "") ∧
    observeField (workerIteration engineStub "t0"
        (PopOutcome.item (Payload.wellFormed [("job_id", "j1")]))
        ⟨⟨[], [], []⟩, metrics0, false⟩).store
        (RESULT_NS ++ (alookup [("job_id", "j1")] "job_id").getD "unknown") "status"
      = some "error" ∧
    (workerIteration engineStub "t0"
        (PopOutcome.item (Payload.wellFormed [("job_id", "j1")]))
        ⟨⟨[], [], []⟩, metrics0, false⟩).metrics.processedErr
      = metrics0.processedErr + 1 := by
  refine ⟨rfl, ?_, ?_⟩
  · exact (c4_empty_question_error_path engineStub "t0" [("job_id", "j1")]
      [] [] metrics0 false rfl).1
  · exact (c4_empty_question_error_path engineStub "t0" [("job_id", "j1")]
      [] [] metrics0 false rfl).2.2.2.1

/-- C6: a valid job with a non-empty question whose pipeline call succeeds
    yields a record under `RESULT_PREFIX + job_id` with `status=completed`,
    the pipeline's answer, the JSON-encoded sources, the worker identity and
    a completion timestamp, and the key's TTL set to the configured
    retention value (default 3600 seconds) by the same write operation. -/
theorem c6_success_record (engine : RagEngine) (now : String)
    (job_data : List (String × String)) (hs : List (String × Hash))
    (ts : List (String × Nat)) (m : Metrics) (sd : Bool) (r : RagResult)
    (hq : (alookup job_data "question").getD "" ≠ "")
    (he : engine ((alookup job_data "question").getD "") = Except.ok r) :
    observeField (workerIteration engine now
        (PopOutcome.item (Payload.wellFormed job_data)) ⟨⟨hs, ts, []⟩, m, sd⟩).store
        (RESULT_NS ++ (alookup job_data "job_id").getD "unknown") "status" = some "completed" ∧
    observeField (workerIteration engine now
        (PopOutcome.item (Payload.wellFormed job_data)) ⟨⟨hs, ts, []⟩, m, sd⟩).store
        (RESULT_NS ++ (alookup job_data "job_id").getD "unknown") "answer" = some r.answer ∧
    observeField (workerIteration engine now
        (PopOutcome.item (Payload.wellFormed job_data)) ⟨⟨hs, ts, []⟩, m, sd⟩).store
        (RESULT_NS ++ (alookup job_data "job_id").getD "unknown") "sources"
      = some (jsonDumpsSources r.sources) ∧
    observeField (workerIteration engine now
        (PopOutcome.item (Payload.wellFormed job_data)) ⟨⟨hs, ts, []⟩, m, sd⟩).store
        (RESULT_NS ++ (alookup job_data "job_id").getD "unknown") "worker_id" = some WORKER_ID ∧
    observeField (workerIteration engine now
        (PopOutcome.item (Payload.wellFormed job_data)) ⟨⟨hs, ts, []⟩, m, sd⟩).store
        (RESULT_NS ++ (alookup job_data "job_id").getD "unknown") "completed_at" = some now ∧
    ttlOf (workerIteration engine now
        (PopOutcome.item (Payload.wellFormed job_data)) ⟨⟨hs, ts, []⟩, m, sd⟩).store
        (RESULT_NS ++ (alookup job_data "job_id").getD "unknown") = some RESULT_TTL ∧
    RESULT_TTL = 3600 := by
  rw [success_iteration engine now job_data hs ts m sd r hq he]
  refine ⟨?_, ?_, ?_, ?_, ?_, ?_, rfl⟩ <;>
    simp +decide [observeField, ttlOf, alookup_setAssoc, resultFieldsHash]

/-- Witness for C6 at the spec's round-trip vector with the stub pipeline. -/
theorem c6_success_record_witness :
    ((alookup [("job_id", "job_abc123"),
        ("question", "What is the refund policy?")] "question").getD "" ≠ "") ∧
    engineStub ((alookup [("job_id", "job_abc123"),
        ("question", "What is the refund policy?")] "question").getD "")
      = Except.ok { answer := "30 days", sources := [] } ∧
    observeField (workerIteration engineStub "2024-01-01T00:00:01"
        (PopOutcome.item (Payload.wellFormed [("job_id", "job_abc123"),
          ("question", "What is the refund policy?")]))
        ⟨⟨[], [], []⟩, metrics0, false⟩).store
        (RESULT_NS ++ (alookup [("job_id", "job_abc123"),
          ("question", "What is the refund policy?")] "job_id").getD "unknown") "status"
      = some "completed" ∧
    observeField (workerIteration engineStub "2024-01-01T00:00:01"
        (PopOutcome.item (Payload.wellFormed [("job_id", "job_abc123"),
          ("question", "What is the refund policy?")]))
        ⟨⟨[], [], []⟩, metrics0, false⟩).store
        (RESULT_NS ++ (alookup [("job_id", "job_abc123"),
          ("question", "What is the refund policy?")] "job_id").getD "unknown") "answer"
      = some "30 days" ∧
    ttlOf (workerIteration engineStub "2024-01-01T00:00:01"
        (PopOutcome.item (Payload.wellFormed [("job_id", "job_abc123"),
          ("question", "What is the refund policy?")]))
        ⟨⟨[], [], []⟩, metrics0, false⟩).store
        (RESULT_NS ++ (alookup [("job_id", "job_abc123"),
          ("question", "What is the refund policy?")] "job_id").getD "unknown")
      = some RESULT_TTL := by
  have h := c6_success_record engineStub "2024-01-01T00:00:01"
    [("job_id", "job_abc123"), ("question", "What is the refund policy?")]
    [] [] metrics0 false { answer := "30 days", sources := [] }
    (by decide) rfl
  exact ⟨by decide, rfl, h.1, h.2.1, h.2.2.2.2.2.1⟩

/-- C3: a payload that fails to parse as JSON is discarded: the processed
    counter gets an error-label increment, no result record is written (the
    store is untouched), and the loop continues — a subsequent well-formed
    job on the queue is still processed normally (its completed record is
    written). -/
theorem c3_malformed_payload_discarded (engine : RagEngine)
    (now now2 raw : String) (hs : List (String × Hash))
    (ts : List (String × Nat)) (m : Metrics) (sd : Bool)
    (job_data : List (String × String)) (r : RagResult)
    (hq : (alookup job_data "question").getD "" ≠ "")
    (he : engine ((alookup job_data "question").getD "") = Except.ok r) :
    (workerIteration engine now (PopOutcome.item (Payload.malformed raw))
        ⟨⟨hs, ts, []⟩, m, sd⟩).store = ⟨hs, ts, []⟩ ∧
    (workerIteration engine now (PopOutcome.item (Payload.malformed raw))
        ⟨⟨hs, ts, []⟩, m, sd⟩).metrics.processedErr = m.processedErr + 1 ∧
    (workerIteration engine now (PopOutcome.item (Payload.malformed raw))
        ⟨⟨hs, ts, []⟩, m, sd⟩).metrics.processedOk = m.processedOk ∧
    (workerIteration engine now (PopOutcome.item (Payload.malformed raw))
        ⟨⟨hs, ts, []⟩, m, sd⟩).metrics.inflight = m.inflight ∧
    observeField (workerIteration engine now2
        (PopOutcome.item (Payload.wellFormed job_data))
        (workerIteration engine now (PopOutcome.item (Payload.malformed raw))
          ⟨⟨hs, ts, []⟩, m, sd⟩)).store
        (RESULT_NS ++ (alookup job_data "job_id").getD "unknown") "status"
      = some "completed" := by
  have h1 : workerIteration engine now (PopOutcome.item (Payload.malformed raw))
      ⟨⟨hs, ts, []⟩, m, sd⟩ = ⟨⟨hs, ts, []⟩, record_job_error m, sd⟩ := rfl
  rw [h1]
  refine ⟨rfl, rfl, rfl, rfl, ?_⟩
  rw [success_iteration engine now2 job_data hs ts (record_job_error m) sd r hq he]
  simp +decide [observeField, alookup_setAssoc, resultFieldsHash]

/-- Witness for C3: the spec's `"not-json"` payload followed by a valid
    job. -/
theorem c3_malformed_payload_discarded_witness :
    ((alookup [("job_id", "j2"), ("question", "Q")] "question").getD "" ≠ "") ∧
    engineStub ((alookup [("job_id", "j2"), ("question", "Q")] "question").getD "")
      = Except.ok { answer := "30 days", sources := [] } ∧
    (workerIteration engineStub "t0" (PopOutcome.item (Payload.malformed "not-json"))
        ⟨⟨[], [], []⟩, metrics0, false⟩).store = ⟨[], [], []⟩ ∧
    (workerIteration engineStub "t0" (PopOutcome.item (Payload.malformed "not-json"))
        ⟨⟨[], [], []⟩, metrics0, false⟩).metrics.processedErr = metrics0.processedErr + 1 ∧
    observeField (workerIteration engineStub "t1"
        (PopOutcome.item (Payload.wellFormed [("job_id", "j2"), ("question", "Q")]))
        (workerIteration engineStub "t0" (PopOutcome.item (Payload.malformed "not-json"))
          ⟨⟨[], [], []⟩, metrics0, false⟩)).store
        (RESULT_NS ++ (alookup [("job_id", "j2"), ("question", "Q")] "job_id").getD "unknown")
        "status" = some "completed" := by
  have h := c3_malformed_payload_discarded engineStub "t0" "t1" "not-json"
    [] [] metrics0 false [("job_id", "j2"), ("question", "Q")]
    { answer := "30 days", sources := [] } (by decide) rfl
  exact ⟨by decide, rfl, h.1, h.2.1, h.2.2.2.2⟩

/-- C10: a well-formed payload without a `job_id` field but with a non-empty
    question is processed under the literal job_id `"unknown"`: its success
    record — or, when the pipeline call fails, its error record — is written
    at `RESULT_PREFIX ++ "unknown"`, and a second such job writes to the
    same key, overwriting the fields of the first. -/
theorem c10_missing_job_id_unknown_key (engine engine2 : RagEngine)
    (now1 now2 now3 : String) (j1 j2 j3 : List (String × String))
    (hs : List (String × Hash)) (ts : List (String × Nat)) (m : Metrics)
    (sd : Bool) (r1 r2 : RagResult) (err : String)
    (hid1 : alookup j1 "job_id" = none)
    (hid2 : alookup j2 "job_id" = none)
    (hid3 : alookup j3 "job_id" = none)
    (hq1 : (alookup j1 "question").getD "" ≠ "")
    (he1 : engine ((alookup j1 "question").getD "") = Except.ok r1)
    (hq2 : (alookup j2 "question").getD "" ≠ "")
    (he2 : engine ((alookup j2 "question").getD "") = Except.ok r2)
    (hq3 : (alookup j3 "question").getD "" ≠ "")
    (he3 : engine2 ((alookup j3 "question").getD "") = Except.error err) :
    observeField (workerIteration engine now1
        (PopOutcome.item (Payload.wellFormed j1)) ⟨⟨hs, ts, []⟩, m, sd⟩).store
        (RESULT_NS ++ "unknown") "status" = some "completed" ∧
    observeField (workerIteration engine now1
        (PopOutcome.item (Payload.wellFormed j1)) ⟨⟨hs, ts, []⟩, m, sd⟩).store
        (RESULT_NS ++ "unknown") "answer" = some r1.answer ∧
    observeField (workerIteration engine now2
        (PopOutcome.item (Payload.wellFormed j2))
        (workerIteration engine now1 (PopOutcome.item (Payload.wellFormed j1))
          ⟨⟨hs, ts, []⟩, m, sd⟩)).store
        (RESULT_NS ++ "unknown") "answer" = some r2.answer ∧
    observeField (workerIteration engine now2
        (PopOutcome.item (Payload.wellFormed j2))
        (workerIteration engine now1 (PopOutcome.item (Payload.wellFormed j1))
          ⟨⟨hs, ts, []⟩, m, sd⟩)).store
        (RESULT_NS ++ "unknown") "completed_at" = some now2 ∧
    observeField (workerIteration engine2 now3
        (PopOutcome.item (Payload.wellFormed j3)) ⟨⟨hs, ts, []⟩, m, sd⟩).store
        (RESULT_NS ++ "unknown") "status" = some "error" ∧
    observeField (workerIteration engine2 now3
        (PopOutcome.item (Payload.wellFormed j3)) ⟨⟨hs, ts, []⟩, m, sd⟩).store
        (RESULT_NS ++ "unknown") "error" = some err := by
  have e3 := pipeline_error_iteration engine2 now3 j3 hs ts m sd err hq3 he3
  rw [hid3] at e3
  simp only [Option.getD_none] at e3
  rw [e3]
  have e1 := success_iteration engine now1 j1 hs ts m sd r1 hq1 he1
  rw [hid1] at e1
  simp only [Option.getD_none] at e1
  rw [e1]
  have e2 := success_iteration engine now2 j2
    (setAssoc hs (RESULT_NS ++ "unknown")
      (resultFieldsHash ((alookup hs (RESULT_NS ++ "unknown")).getD [])
        { job_id := "unknown", status := "completed",
          question := (alookup j1 "question").getD "", answer := r1.answer,
          sources := r1.sources, worker_id := WORKER_ID, completed_at := now1 }))
    (setAssoc ts (RESULT_NS ++ "unknown") RESULT_TTL)
    (decrement_inflight (observeDuration (record_job_success (increment_inflight m))))
    sd r2 hq2 he2
  rw [hid2] at e2
  simp only [Option.getD_none] at e2
  rw [e2]
  refine ⟨?_, ?_, ?_, ?_, ?_, ?_⟩ <;>
    simp +decide [observeField, alookup_setAssoc, resultFieldsHash,
      errorFieldsHash]

/-- Witness for C10 at three concrete jobs lacking `job_id`: two against the
    succeeding stub, one against the failing stub. -/
theorem c10_missing_job_id_unknown_key_witness :
    (alookup [("question", "Q1")] "job_id" = none) ∧
    (alookup [("question", "Q2")] "job_id" = none) ∧
    (alookup [("question", "Q3")] "job_id" = none) ∧
    ((alookup [("question", "Q1")] "question").getD "" ≠ "") ∧
    ((alookup [("question", "Q2")] "question").getD "" ≠ "") ∧
    ((alookup [("question", "Q3")] "question").getD "" ≠ "") ∧
    engineStubDown ((alookup [("question", "Q3")] "question").getD "")
      = Except.error "pipeline down" ∧
    observeField (workerIteration engineStub "t1"
        (PopOutcome.item (Payload.wellFormed [("question", "Q1")]))
        ⟨⟨[], [], []⟩, metrics0, false⟩).store
        (RESULT_NS ++ "unknown") "status" = some "completed" ∧
    observeField (workerIteration engineStub "t2"
        (PopOutcome.item (Payload.wellFormed [("question", "Q2")]))
        (workerIteration engineStub "t1"
          (PopOutcome.item (Payload.wellFormed [("question", "Q1")]))
          ⟨⟨[], [], []⟩, metrics0, false⟩)).store
        (RESULT_NS ++ "unknown") "completed_at" = some "t2" ∧
    observeField (workerIteration engineStubDown "t3"
        (PopOutcome.item (Payload.wellFormed [("question", "Q3")]))
        ⟨⟨[], [], []⟩, metrics0, false⟩).store
        (RESULT_NS ++ "unknown") "status" = some "error" ∧
    observeField (workerIteration engineStubDown "t3"
        (PopOutcome.item (Payload.wellFormed [("question", "Q3")]))
        ⟨⟨[], [], []⟩, metrics0, false⟩).store
        (RESULT_NS ++ "unknown") "error" = some "pipeline down" := by
  have h := c10_missing_job_id_unknown_key engineStub engineStubDown
    "t1" "t2" "t3"
    [("question", "Q1")] [("question", "Q2")] [("question", "Q3")]
    [] [] metrics0 false
    { answer := "30 days", sources := [] } { answer := "30 days", sources := [] }
    "pipeline down"
    rfl rfl rfl (by decide) rfl (by decide) rfl (by decide) rfl
  exact ⟨rfl, rfl, rfl, by decide, by decide, by decide, rfl,
    h.1, h.2.2.2.1, h.2.2.2.2.1, h.2.2.2.2.2⟩

theorem resultFieldsHash_again (h0 : Hash) (r1 r2 : JobResult) (g : String) :
    alookup (resultFieldsHash (resultFieldsHash h0 r1) r2) g
      = alookup (resultFieldsHash h0 r2) g := by
  simp only [resultFieldsHash, alookup_setAssoc]
  by_cases h1 : "completed_at" = g <;> by_cases h2 : "worker_id" = g <;>
    by_cases h3 : "sources" = g <;> by_cases h4 : "answer" = g <;>
    by_cases h5 : "status" = g <;> simp [h1, h2, h3, h4, h5]

theorem errorFieldsHash_again (h0 : Hash) (e1 n1 e2 n2 : String) (g : String) :
    alookup (errorFieldsHash (errorFieldsHash h0 e1 n1) e2 n2) g
      = alookup (errorFieldsHash h0 e2 n2) g := by
  simp only [errorFieldsHash, alookup_setAssoc]
  by_cases h1 : "completed_at" = g <;> by_cases h2 : "worker_id" = g <;>
    by_cases h3 : "error" = g <;> by_cases h4 : "status" = g <;>
    simp [h1, h2, h3, h4]

/-- C2 counterexample: for job_id `"j1"`, a success write followed by an
    error write leaves the first write's `answer` field observable, while
    the error write alone leaves none — the state after the second write is
    not the state produced by the second write alone, refuting the claim's
    pure-overwrite reading for mixed write pairs. -/
theorem c2_pure_overwrite_counterexample :
    observeField (store_error (store_result ⟨[], [], []⟩ "j1" sampleResult).1
        "j1" "boom" "t2").1 (RESULT_NS ++ "j1") "answer" = some "30 days" ∧
    observeField (store_error ⟨[], [], []⟩ "j1" "boom" "t2").1
        (RESULT_NS ++ "j1") "answer" = none ∧
    (store_error (store_result ⟨[], [], []⟩ "j1" sampleResult).1 "j1" "boom" "t2").1
      ≠ (store_error ⟨[], [], []⟩ "j1" "boom" "t2").1 := by
  refine ⟨?_, ?_, ?_⟩ <;> decide

/-- C2 amended: result writes are last-writer-wins per field (Redis `HSET`
    merge).  Two writes through the same function (success twice, or error
    twice) are a pure overwrite: the observable store state after the second
    equals the second write alone, at every key and field and in TTL.  A
    success write followed by an error write sets every field of the error
    write to the error write's values, but the first write's `answer` and
    `sources` fields remain observable (and symmetrically, error-then-success
    leaves the `error` field observable) — a field-level merge, not a record
    replacement. -/
theorem c2_last_writer_wins_per_field (hs : List (String × Hash))
    (ts : List (String × Nat)) (jid : String) (r1 r2 : JobResult)
    (e1 e2 now1 now2 : String) (k g : String) :
    observeField (store_result (store_result ⟨hs, ts, []⟩ jid r1).1 jid r2).1 k g
      = observeField (store_result ⟨hs, ts, []⟩ jid r2).1 k g ∧
    ttlOf (store_result (store_result ⟨hs, ts, []⟩ jid r1).1 jid r2).1 k
      = ttlOf (store_result ⟨hs, ts, []⟩ jid r2).1 k ∧
    observeField (store_error (store_error ⟨hs, ts, []⟩ jid e1 now1).1 jid e2 now2).1 k g
      = observeField (store_error ⟨hs, ts, []⟩ jid e2 now2).1 k g ∧
    ttlOf (store_error (store_error ⟨hs, ts, []⟩ jid e1 now1).1 jid e2 now2).1 k
      = ttlOf (store_error ⟨hs, ts, []⟩ jid e2 now2).1 k ∧
    observeField (store_error (store_result ⟨hs, ts, []⟩ jid r1).1 jid e2 now2).1
        (RESULT_NS ++ jid) "status" = some "error" ∧
    observeField (store_error (store_result ⟨hs, ts, []⟩ jid r1).1 jid e2 now2).1
        (RESULT_NS ++ jid) "error" = some e2 ∧
    observeField (store_error (store_result ⟨hs, ts, []⟩ jid r1).1 jid e2 now2).1
        (RESULT_NS ++ jid) "completed_at" = some now2 ∧
    observeField (store_error (store_result ⟨hs, ts, []⟩ jid r1).1 jid e2 now2).1
        (RESULT_NS ++ jid) "answer" = some r1.answer ∧
    observeField (store_error (store_result ⟨hs, ts, []⟩ jid r1).1 jid e2 now2).1
        (RESULT_NS ++ jid) "sources" = some (jsonDumpsSources r1.sources) ∧
    observeField (store_result (store_error ⟨hs, ts, []⟩ jid e1 now1).1 jid r2).1
        (RESULT_NS ++ jid) "status" = some r2.status ∧
    observeField (store_result (store_error ⟨hs, ts, []⟩ jid e1 now1).1 jid r2).1
        (RESULT_NS ++ jid) "error" = some e1 := by
  rw [store_result_nofault hs ts jid r1]
  rw [store_error_nofault hs ts jid e1 now1]
  refine ⟨?_, ?_, ?_, ?_, ?_⟩
  · rw [store_result_nofault, store_result_nofault, observeField, observeField]
    by_cases hk : RESULT_NS ++ jid = k
    · simp [alookup_setAssoc, hk, resultFieldsHash_again]
    · simp [alookup_setAssoc, hk]
  · rw [store_result_nofault, store_result_nofault, ttlOf, ttlOf]
    simp [alookup_setAssoc]
    intro hk
    simp [hk]
  · rw [store_error_nofault, store_error_nofault, observeField, observeField]
    by_cases hk : RESULT_NS ++ jid = k
    · simp [alookup_setAssoc, hk, errorFieldsHash_again]
    · simp [alookup_setAssoc, hk]
  · rw [store_error_nofault, store_error_nofault, ttlOf, ttlOf]
    simp [alookup_setAssoc]
    intro hk
    simp [hk]
  · rw [store_error_nofault, store_result_nofault]
    refine ⟨?_, ?_, ?_, ?_, ?_, ?_, ?_⟩ <;>
      simp +decide [observeField, alookup_setAssoc, errorFieldsHash,
        resultFieldsHash]

/-- C5 counterexample: run a job whose pipeline succeeds against a store
    that rejects the result write (fault schedule `[false, true, true]`).
    Contrary to the claim, the worker interacts with the store again for the
    same job — an error record becomes observable under the job's key — and
    the job is counted as a job-level failure (error counter incremented). -/
theorem c5_write_failure_counterexample :
    observeField (workerIteration engineStub "t0"
        (PopOutcome.item (Payload.wellFormed [("job_id", "j1"), ("question", "Q")]))
        ⟨⟨[], [], [false, true, true]⟩, metrics0, false⟩).store
        (RESULT_NS ++ "j1") "status" = some "error" ∧
    observeField (workerIteration engineStub "t0"
        (PopOutcome.item (Payload.wellFormed [("job_id", "j1"), ("question", "Q")]))
        ⟨⟨[], [], [false, true, true]⟩, metrics0, false⟩).store
        (RESULT_NS ++ "j1") "error" = some "store write rejected" ∧
    (workerIteration engineStub "t0"
        (PopOutcome.item (Payload.wellFormed [("job_id", "j1"), ("question", "Q")]))
        ⟨⟨[], [], [false, true, true]⟩, metrics0, false⟩).metrics.processedErr = 1 := by
  refine ⟨?_, ?_, ?_⟩ <;> decide

/-- C5 amended: when the pipeline succeeds but the store rejects the result
    write, the raised exception is caught by the job-level handler, which
    does interact with the store again — it attempts an error record under
    the same job_id — and counts the job as a job-level failure; if that
    error write is also rejected, no record and no counter result, only the
    `finally` accounting (duration observed, inflight balanced), and in
    either case the loop proceeds. -/
theorem c5_write_failure_error_path (engine : RagEngine) (now : String)
    (job_data : List (String × String)) (hs : List (String × Hash))
    (ts : List (String × Nat)) (m : Metrics) (sd : Bool) (r : RagResult)
    (fs : List Bool)
    (hq : (alookup job_data "question").getD "" ≠ "")
    (he : engine ((alookup job_data "question").getD "") = Except.ok r) :
    observeField (workerIteration engine now
        (PopOutcome.item (Payload.wellFormed job_data))
        ⟨⟨hs, ts, false :: true :: true :: fs⟩, m, sd⟩).store
        (RESULT_NS ++ (alookup job_data "job_id").getD "unknown") "status" = some "error" ∧
    observeField (workerIteration engine now
        (PopOutcome.item (Payload.wellFormed job_data))
        ⟨⟨hs, ts, false :: true :: true :: fs⟩, m, sd⟩).store
        (RESULT_NS ++ (alookup job_data "job_id").getD "unknown") "error"
      = some "store write rejected" ∧
    (workerIteration engine now
        (PopOutcome.item (Payload.wellFormed job_data))
        ⟨⟨hs, ts, false :: true :: true :: fs⟩, m, sd⟩).metrics.processedErr
      = m.processedErr + 1 ∧
    (workerIteration engine now
        (PopOutcome.item (Payload.wellFormed job_data))
        ⟨⟨hs, ts, false :: true :: true :: fs⟩, m, sd⟩).metrics.processedOk
      = m.processedOk ∧
    (workerIteration engine now
        (PopOutcome.item (Payload.wellFormed job_data))
        ⟨⟨hs, ts, false :: true :: true :: fs⟩, m, sd⟩).metrics.inflight
      = m.inflight ∧
    (workerIteration engine now
        (PopOutcome.item (Payload.wellFormed job_data))
        ⟨⟨hs, ts, [false, false]⟩, m, sd⟩).store.hashes = hs ∧
    (workerIteration engine now
        (PopOutcome.item (Payload.wellFormed job_data))
        ⟨⟨hs, ts, [false, false]⟩, m, sd⟩).metrics.processedErr = m.processedErr ∧
    (workerIteration engine now
        (PopOutcome.item (Payload.wellFormed job_data))
        ⟨⟨hs, ts, [false, false]⟩, m, sd⟩).metrics.processedOk = m.processedOk ∧
    (workerIteration engine now
        (PopOutcome.item (Payload.wellFormed job_data))
        ⟨⟨hs, ts, [false, false]⟩, m, sd⟩).metrics.inflight = m.inflight ∧
    (workerIteration engine now
        (PopOutcome.item (Payload.wellFormed job_data))
        ⟨⟨hs, ts, [false, false]⟩, m, sd⟩).metrics.durationObs = m.durationObs + 1 := by
  have hpj := process_job_success engine now job_data r hq he
  refine ⟨?_, ?_, ?_, ?_, ?_, ?_, ?_, ?_, ?_, ?_⟩ <;>
    simp +decide [workerIteration, tryProcessStore, hpj, store_result,
      store_error, hset, expire, nextFault, hsetFields, observeField,
      alookup_setAssoc, record_job_error, record_job_success,
      increment_inflight, decrement_inflight, observeDuration]

/-- Witness for C5's amended theorem at a concrete job and stub pipeline. -/
theorem c5_write_failure_error_path_witness :
    ((alookup [("job_id", "j1"), ("question", "Q")] "question").getD "" ≠ "") ∧
    engineStub ((alookup [("job_id", "j1"), ("question", "Q")] "question").getD "")
      = Except.ok { answer := "30 days", sources := [] } ∧
    observeField (workerIteration engineStub "t0"
        (PopOutcome.item (Payload.wellFormed [("job_id", "j1"), ("question", "Q")]))
        ⟨⟨[], [], false :: true :: true :: []⟩, metrics0, false⟩).store
        (RESULT_NS ++ (alookup [("job_id", "j1"), ("question", "Q")] "job_id").getD "unknown")
        "status" = some "error" ∧
    (workerIteration engineStub "t0"
        (PopOutcome.item (Payload.wellFormed [("job_id", "j1"), ("question", "Q")]))
        ⟨⟨[], [], [false, false]⟩, metrics0, false⟩).metrics.processedErr
      = metrics0.processedErr := by
  have h := c5_write_failure_error_path engineStub "t0"
    [("job_id", "j1"), ("question", "Q")] [] [] metrics0 false
    { answer := "30 days", sources := [] } [] (by decide) rfl
  exact ⟨by decide, rfl, h.1, h.2.2.2.2.2.2.1⟩

theorem pushAll_eq_reverse_append (xs q : List String) :
    pushAll q xs = xs.reverse ++ q := by
  induction xs generalizing q with
  | nil => simp [pushAll]
  | cons x xs ih =>
    have h : pushAll q (x :: xs) = pushAll (lpush q x) xs := rfl
    rw [h, ih]
    simp [lpush]

theorem brpop_pushAll (x : String) (xs : List String) :
    brpop (pushAll [] (x :: xs)) = some (x, pushAll [] xs) := by
  simp [pushAll_eq_reverse_append, brpop]

theorem popAll_pushAll (xs : List String) :
    popAll xs.length (pushAll [] xs) = xs := by
  induction xs with
  | nil => rfl
  | cons x xs ih => simp [popAll, brpop_pushAll, ih]

/-- C7: the queue is FIFO by push order — on a non-empty queue built by
    pushes, a blocking pop returns the oldest pushed payload, repeated pops
    deliver all payloads in push order, and a pop on an empty queue returns
    the empty result rather than an error. -/
theorem c7_fifo_by_push_order (x : String) (xs : List String) :
    brpop (pushAll [] (x :: xs)) = some (x, pushAll [] xs) ∧
    popAll (x :: xs).length (pushAll [] (x :: xs)) = x :: xs ∧
    brpop ([] : List String) = none :=
  ⟨brpop_pushAll x xs, popAll_pushAll (x :: xs), rfl⟩

theorem brpop_decomp (q : List String) (x : String) (q1 : List String)
    (h : brpop q = some (x, q1)) : q = q1 ++ [x] := by
  unfold brpop at h
  cases hq : q.reverse with
  | nil => rw [hq] at h; simp at h
  | cons a as =>
    rw [hq] at h
    simp only [Option.some.injEq, Prod.mk.injEq] at h
    obtain ⟨h1, h2⟩ := h
    have hqq : q = (a :: as).reverse := by rw [← hq, List.reverse_reverse]
    rw [hqq, List.reverse_cons, ← h1, ← h2]

theorem runPops_count (p : String) (sched : List Nat) (q : List String) :
    ((runPops sched q).2.map Prod.snd).count p + (runPops sched q).1.count p
      = q.count p := by
  induction sched generalizing q with
  | nil => simp [runPops]
  | cons w ws ih =>
    cases hbr : brpop q with
    | none => simpa [runPops, hbr] using ih q
    | some pr =>
      obtain ⟨x, q1⟩ := pr
      have hq := brpop_decomp q x q1 hbr
      rcases hrun : runPops ws q1 with ⟨qf, ds⟩
      have hcount := ih q1
      rw [hrun] at hcount
      subst hq
      simp only [runPops, hbr, hrun, List.map_cons, List.count_append,
        List.count_cons] at *
      by_cases hxp : x = p <;> simp [hxp] at * <;> omega

/-- C9: in any interleaving of N workers' atomic pops on a shared queue,
    delivered payloads plus remaining payloads account exactly for the
    initial queue; hence a payload occurring once in the queue is returned
    by at most one of the concurrent pop calls — no duplicate delivery. -/
theorem c9_no_duplicate_delivery (sched : List Nat) (q : List String)
    (p : String) :
    (((runPops sched q).2.map Prod.snd).count p + (runPops sched q).1.count p
      = q.count p) ∧
    (q.count p ≤ 1 → ((runPops sched q).2.map Prod.snd).count p ≤ 1) := by
  refine ⟨runPops_count p sched q, fun h => ?_⟩
  have := runPops_count p sched q
  omega

/-- Witness for C9: two workers racing on a two-element queue. -/
theorem c9_no_duplicate_delivery_witness :
    (["a", "b"].count "a" ≤ 1) ∧
    ((runPops [0, 1] ["a", "b"]).2.map Prod.snd).count "a" ≤ 1 :=
  ⟨by decide, (c9_no_duplicate_delivery [0, 1] ["a", "b"] "a").2 (by decide)⟩

/-- C8: the loop exits only with the shutdown flag set, and observes the
    flag only at iteration boundaries.  (1) Any run that exits does so in a
    state with the flag set.  (2) A transport connectivity failure during pop
    leaves the state unchanged and the loop continues.  (3) For any iteration
    input with the flag clear, the loop runs the full iteration and
    continues — every per-iteration outcome is internalized (the Python
    `except` clauses at the loop boundary), none exits the loop.  (4) A job
    in flight when the signal arrives runs to completion — the loop exits at
    the next boundary with the job's full effects applied.  (5) For a valid
    job over a fault-free store, that final state contains the job's
    completed record, success count and balanced inflight gauge. -/
theorem c8_shutdown_only_at_boundary (engine : RagEngine)
    (inputs rest : List IterInput) (st st' : WorkerState) (pop : PopOutcome)
    (now : String) :
    (workerLoop engine inputs st = some st' → st'.shutdown = true) ∧
    (workerIteration engine now PopOutcome.connError st = st) ∧
    (st.shutdown = false →
      workerLoop engine (⟨pop, now, false⟩ :: rest) st
        = workerLoop engine rest (workerIteration engine now pop st)) ∧
    (st.shutdown = false →
      workerLoop engine (⟨pop, now, true⟩ :: rest) st
        = some { workerIteration engine now pop st with shutdown := true }) ∧
    (∀ (hs : List (String × Hash)) (ts : List (String × Nat)) (m : Metrics)
        (job_data : List (String × String)) (r : RagResult),
      (alookup job_data "question").getD "" ≠ "" →
      engine ((alookup job_data "question").getD "") = Except.ok r →
      ∃ stf, workerLoop engine
          (⟨PopOutcome.item (Payload.wellFormed job_data), now, true⟩ :: rest)
          ⟨⟨hs, ts, []⟩, m, false⟩ = some stf ∧
        stf.shutdown = true ∧
        observeField stf.store
          (RESULT_NS ++ (alookup job_data "job_id").getD "unknown") "status"
          = some "completed" ∧
        stf.metrics.processedOk = m.processedOk + 1 ∧
        stf.metrics.inflight = m.inflight) := by
  refine ⟨?_, rfl, ?_, ?_, ?_⟩
  · induction inputs generalizing st with
    | nil =>
      intro h
      by_cases hsd : st.shutdown
      · simp only [workerLoop, hsd, if_true, Option.some.injEq] at h
        rw [← h]
        exact hsd
      · simp [workerLoop, hsd] at h
    | cons inp rest2 ih =>
      intro h
      by_cases hsd : st.shutdown
      · simp only [workerLoop, hsd, if_true, Option.some.injEq] at h
        rw [← h]
        exact hsd
      · simp only [workerLoop, hsd, if_false] at h
        exact ih _ h
  · intro hsd
    simp [workerLoop, hsd, loopStep]
  · intro hsd
    simp [workerLoop, hsd, loopStep]
    cases rest <;> simp [workerLoop]
  · intro hs ts m job_data r hq he
    refine ⟨{ workerIteration engine now
        (PopOutcome.item (Payload.wellFormed job_data))
        ⟨⟨hs, ts, []⟩, m, false⟩ with shutdown := true }, ?_, rfl, ?_, ?_, ?_⟩
    · simp only [workerLoop, Bool.false_eq_true, if_false, loopStep, if_true]
      cases rest <;> simp [workerLoop]
    · rw [success_iteration engine now job_data hs ts m false r hq he]
      simp +decide [observeField, alookup_setAssoc, resultFieldsHash]
    · rw [success_iteration engine now job_data hs ts m false r hq he]
      simp [record_job_success, increment_inflight, decrement_inflight,
        observeDuration]
    · rw [success_iteration engine now job_data hs ts m false r hq he]
      simp [record_job_success, increment_inflight, decrement_inflight,
        observeDuration]

/-- Witness for C8 at concrete states: an already-signalled empty run exits
    with the flag set, and a signal during a concrete job's iteration still
    yields that job's completed record before exit. -/
theorem c8_shutdown_only_at_boundary_witness :
    (workerLoop engineStub [] ⟨⟨[], [], []⟩, metrics0, true⟩
      = some ⟨⟨[], [], []⟩, metrics0, true⟩) ∧
    (⟨⟨[], [], []⟩, metrics0, true⟩ : WorkerState).shutdown = true ∧
    ((⟨⟨[], [], []⟩, metrics0, false⟩ : WorkerState).shutdown = false) ∧
    ((alookup [("job_id", "j1"), ("question", "Q")] "question").getD "" ≠ "") ∧
    (∃ stf, workerLoop engineStub
        [⟨PopOutcome.item (Payload.wellFormed [("job_id", "j1"), ("question", "Q")]),
          "t0", true⟩] ⟨⟨[], [], []⟩, metrics0, false⟩ = some stf ∧
      stf.shutdown = true ∧
      observeField stf.store
        (RESULT_NS ++ (alookup [("job_id", "j1"), ("question", "Q")] "job_id").getD "unknown")
        "status" = some "completed" ∧
      stf.metrics.processedOk = metrics0.processedOk + 1 ∧
      stf.metrics.inflight = metrics0.inflight) := by
  have h := c8_shutdown_only_at_boundary engineStub []
    ([] : List IterInput) ⟨⟨[], [], []⟩, metrics0, true⟩
    ⟨⟨[], [], []⟩, metrics0, true⟩ PopOutcome.timeout "t0"
  exact ⟨rfl, h.1 rfl, rfl, by decide,
    h.2.2.2.2 [] [] metrics0 [("job_id", "j1"), ("question", "Q")]
      { answer := "30 days", sources := [] } (by decide) rfl⟩

end RagWorker
